import Mathlib

/-!
Shallow embedding of `src/github_tmol_finder.py` (class `GitHubRepoMiner` and its
helpers).  The HTTP layer is abstracted into explicit response values passed as
arguments; time is an integer number of seconds; Python exceptions are modelled
with `Except String`.  Sleeping is modelled by recording the requested sleep
durations in the return value.
-/

/-! ## Rate Governor — `GitHubRepoMiner.check_rate_limit` (lines 34-47) -/

/-- The fields read from the `/rate_limit` response body:
`data["rate"]["remaining"]` and `data["rate"]["reset"]`. -/
structure RateData where
  remaining : Int
  reset : Int
deriving DecidableEq

/-- Outcome of the dedicated quota-status request at line 38:
`.error e` models a transport-level exception raised by `requests.get` or
`response.json()`; `.ok none` models a JSON body from which `data["rate"]`
cannot be read (Python raises `KeyError` at line 41); `.ok (some d)` is a
well-formed response. -/
abbrev QuotaFetch := Except String (Option RateData)

/-- Model of `check_rate_limit` (lines 34-47).  `rate_limit_remaining` is the
last-known remaining quota (`self.rate_limit_remaining`), `quotaFetch` the
outcome of the request at line 38, `now` the value of `int(time.time())`.
Returns `.ok (newRemaining, sleptSeconds)` on normal return; `.error` models a
propagated Python exception.  `time.sleep` with a negative argument raises
`ValueError` (line 47 via line 45); the wait is not clamped to zero. -/
def check_rate_limit (rate_limit_remaining : Int) (quotaFetch : QuotaFetch)
    (now : Int) : Except String (Int × Int) :=
  if rate_limit_remaining < 10 then
    match quotaFetch with
    | .error e => .error e
    | .ok none => .error "KeyError: rate"
    | .ok (some d) =>
      if d.remaining < 5 then
        let wait_time := d.reset - now + 10
        if wait_time < 0 then .error "ValueError: sleep length must be non-negative"
        else .ok (d.remaining, wait_time)
      else .ok (d.remaining, 0)
  else .ok (rate_limit_remaining, 0)

/-! ## Search Client — `GitHubRepoMiner.search_specific_files_in_repo`
(lines 81-142) -/

/-- One item of a code-search response (`data["items"]`), with the fields the
caller reads at lines 281-314. -/
structure FileItem where
  name : String
  path : String
  html_url : String
deriving DecidableEq

/-- One HTTP response of the code-search endpoint, classified as the retry loop
at lines 106-140 classifies it: `ok` is status 200 with its items;
`rateLimited` is status 403 whose body contains "rate limit exceeded", carrying
the `X-RateLimit-Reset` header value; `failure` is any other non-success
status. -/
inductive CodeSearchResponse where
  | ok (items : List FileItem)
  | rateLimited (reset : Int)
  | failure (status : Nat)
deriving DecidableEq

/-- What one call to `search_specific_files_in_repo` did: the returned list,
the sleeps it performed in order, and how many HTTP requests it issued. -/
structure SearchOutcome where
  items : List FileItem
  sleeps : List Int
  attempts : Nat
deriving DecidableEq

/-- The `for attempt in range(max_retries)` loop of lines 106-140.  `resp i`
is the response to the request issued on loop iteration `i`, `now i` the value
of `int(time.time())` on that iteration, `attempt` the current loop index and
`remaining` how many loop iterations are left (so the loop body runs while
`remaining > 0`; falling off the loop reaches the `return []` at line 142).
On 403-with-rate-limit-marker the code sleeps `max (reset - now + 10) 60` and
retries (lines 121-130); on other failures it sleeps `2 ^ attempt * 30` and
retries unless this was the last attempt, in which case it returns `[]`
(lines 131-140). -/
def search_loop (resp : Nat → CodeSearchResponse) (now : Nat → Int)
    (max_retries : Nat) : Nat → Nat → SearchOutcome
  | _, 0 => ⟨[], [], 0⟩
  | attempt, remaining + 1 =>
    match resp attempt with
    | .ok items => ⟨items, [], 1⟩
    | .rateLimited reset =>
      let wait_time := max (reset - now attempt + 10) 60
      let r := search_loop resp now max_retries (attempt + 1) remaining
      ⟨r.items, wait_time :: r.sleeps, r.attempts + 1⟩
    | .failure _ =>
      if attempt < max_retries - 1 then
        let wait_time := 2 ^ attempt * 30
        let r := search_loop resp now max_retries (attempt + 1) remaining
        ⟨r.items, wait_time :: r.sleeps, r.attempts + 1⟩
      else ⟨[], [], 1⟩

/-- Model of `search_specific_files_in_repo` (lines 81-142): the retry loop
with `max_retries = 3`, starting at attempt 0 with 3 iterations available. -/
def search_specific_files_in_repo (resp : Nat → CodeSearchResponse)
    (now : Nat → Int) : SearchOutcome :=
  search_loop resp now 3 0 3

/-! ## Content Verifier — `GitHubRepoMiner.check_file_content_for_text`
(lines 144-176).  The decoding pipeline at line 172,
`base64.b64decode(data["content"]).decode("utf-8")`, is modelled by an
executable base64 decoder and an executable strict UTF-8 decoder. -/

/-- Value of one character of the standard base64 alphabet, `none` for a
character outside it. -/
def b64Val (c : Char) : Option Nat :=
  if 'A' ≤ c ∧ c ≤ 'Z' then some (c.toNat - 65)
  else if 'a' ≤ c ∧ c ≤ 'z' then some (c.toNat - 71)
  else if '0' ≤ c ∧ c ≤ '9' then some (c.toNat + 4)
  else if c = '+' then some 62
  else if c = '/' then some 63
  else none

/-- Decode base64 text four characters at a time into bytes.  A group ending
in one or two padding characters must be the final group; any other shape
(including a trailing group shorter than 4) fails, modelling
`binascii.Error: Invalid padding`. -/
def b64Groups : List Char → Option (List Nat)
  | [] => some []
  | c1 :: c2 :: c3 :: c4 :: rest =>
    match b64Val c1, b64Val c2 with
    | some v1, some v2 =>
      if c3 = '=' ∧ c4 = '=' ∧ rest = [] then
        some [v1 * 4 + v2 / 16]
      else if c4 = '=' ∧ rest = [] then
        match b64Val c3 with
        | some v3 => some [v1 * 4 + v2 / 16, v2 % 16 * 16 + v3 / 4]
        | none => none
      else
        match b64Val c3, b64Val c4, b64Groups rest with
        | some v3, some v4, some bs =>
          some ((v1 * 4 + v2 / 16) :: (v2 % 16 * 16 + v3 / 4) :: (v3 % 4 * 64 + v4) :: bs)
        | _, _, _ => none
    | _, _ => none
  | _ => none

/-- Model of Python `base64.b64decode` with its default `validate=False`:
characters outside the alphabet and distinct from `=` are discarded before
decoding, then the text is decoded in groups of four. -/
def b64decode (s : List Char) : Option (List Nat) :=
  b64Groups (s.filter (fun c => (b64Val c).isSome ∨ c = '='))

/-- Whether a byte is a UTF-8 continuation byte (`0x80..0xBF`). -/
def utf8Cont (b : Nat) : Prop := 0x80 ≤ b ∧ b ≤ 0xBF

instance (b : Nat) : Decidable (utf8Cont b) := by unfold utf8Cont; exact instDecidableAnd

/-- Model of Python `bytes.decode("utf-8")`: strict UTF-8 decoding, rejecting
truncated sequences, stray continuation bytes, overlong encodings, surrogates
and code points above `0x10FFFF` (Python raises `UnicodeDecodeError` there,
caught at line 174). -/
def utf8Decode : List Nat → Option (List Char)
  | [] => some []
  | b1 :: rest =>
    if b1 < 0x80 then
      (utf8Decode rest).map (fun cs => Char.ofNat b1 :: cs)
    else if 0xC2 ≤ b1 ∧ b1 ≤ 0xDF then
      match rest with
      | b2 :: rest2 =>
        if utf8Cont b2 then
          (utf8Decode rest2).map (fun cs => Char.ofNat ((b1 - 0xC0) * 64 + (b2 - 0x80)) :: cs)
        else none
      | [] => none
    else if 0xE0 ≤ b1 ∧ b1 ≤ 0xEF then
      match rest with
      | b2 :: b3 :: rest3 =>
        if utf8Cont b2 ∧ utf8Cont b3
            ∧ (b1 = 0xE0 → 0xA0 ≤ b2) ∧ (b1 = 0xED → b2 ≤ 0x9F) then
          (utf8Decode rest3).map (fun cs =>
            Char.ofNat ((b1 - 0xE0) * 4096 + (b2 - 0x80) * 64 + (b3 - 0x80)) :: cs)
        else none
      | _ => none
    else if 0xF0 ≤ b1 ∧ b1 ≤ 0xF4 then
      match rest with
      | b2 :: b3 :: b4 :: rest4 =>
        if utf8Cont b2 ∧ utf8Cont b3 ∧ utf8Cont b4
            ∧ (b1 = 0xF0 → 0x90 ≤ b2) ∧ (b1 = 0xF4 → b2 ≤ 0x8F) then
          (utf8Decode rest4).map (fun cs =>
            Char.ofNat ((b1 - 0xF0) * 262144 + (b2 - 0x80) * 4096
              + (b3 - 0x80) * 64 + (b4 - 0x80)) :: cs)
        else none
      | _ => none
    else none

/-- The decoding pipeline of line 172 applied to the base64 text of the
`content` field: `base64.b64decode(...)` then `.decode("utf-8")`. -/
def decodeContent (enc : String) : Option (List Char) :=
  (b64decode enc.toList).bind utf8Decode

/-- Python substring membership `needle in hay` on character lists. -/
def listIsSub (needle hay : List Char) : Bool :=
  needle.isPrefixOf hay ||
    match hay with
    | [] => false
    | _ :: t => listIsSub needle t

/-- The file-contents response as read by `check_file_content_for_text`: the
HTTP status and, when the JSON body has a `"content"` key, its base64 text. -/
structure ContentResponse where
  status : Nat
  content : Option String

/-- Model of `check_file_content_for_text` (lines 144-176): non-200 status
returns false (lines 159-161); a body without a `content` field returns false
(lines 167-168); a decoding failure is caught and returns false
(lines 174-176); otherwise the lower-cased search text is tested for substring
membership in the lower-cased decoded content (line 173). -/
def check_file_content_for_text (resp : ContentResponse) (search_text : String) : Bool :=
  if resp.status ≠ 200 then false
  else
    match resp.content with
    | none => false
    | some enc =>
      match decodeContent enc with
      | none => false
      | some content =>
        listIsSub (search_text.toList.map Char.toLower) (content.map Char.toLower)

/-! ## Query Segmenter — `GitHubRepoMiner.create_segmented_queries`
(lines 178-224) -/

/-- The fixed list of star ranges (lines 191-200). -/
def star_ranges : List String :=
  ["stars:0..10", "stars:11..50", "stars:51..100", "stars:101..500",
   "stars:501..1000", "stars:1001..5000", "stars:5001..10000", "stars:>10000"]

/-- `list(range(current_year - 10, current_year + 1))` (line 204): the 11
consecutive years from `current_year - 10` to `current_year`. -/
def yearsList (current_year : Int) : List Int :=
  (List.range 11).map (fun i => current_year - 10 + (i : Int))

/-- Model of `create_segmented_queries` (lines 178-224) as a function of the
current year (the code reads it from `datetime.now().year` at line 203; all
other inputs are fixed).  For each star range: the bare star query, then one
query per consecutive year pair; then the query for repositories created after
the second-to-last year boundary; then the three size queries. -/
def create_segmented_queries (current_year : Int) : List String :=
  let base_query := "language:python"
  let years := yearsList current_year
  let starQueries := star_ranges.flatMap (fun star_range =>
    (base_query ++ " " ++ star_range) ::
      (List.range (years.length - 1)).map (fun i =>
        let created_range := "created:" ++ toString (years.getD i 0) ++ "-01-01.."
          ++ toString (years.getD (i + 1) 0) ++ "-01-01"
        base_query ++ " " ++ star_range ++ " " ++ created_range))
  let recentQuery := base_query ++ " created:>"
    ++ toString (years.getD (years.length - 2) 0) ++ "-01-01"
  let size_ranges := ["size:<1000", "size:1000..5000", "size:>5000"]
  starQueries ++ [recentQuery]
    ++ size_ranges.map (fun size_range => base_query ++ " " ++ size_range)

/-- The year pair `(years[i], years[i+1])` used to build the date filter
`created:{years[i]}-01-01..{years[i+1]}-01-01` at line 213 for loop index `i`
(`for i in range(len(years) - 1)`, line 212, so `i < 10`), in structured form:
the pair `(a, b)` stands for the filter `created:a-01-01..b-01-01`. -/
def created_range_pair (current_year : Int) (i : Nat) : Int × Int :=
  ((yearsList current_year).getD i 0, (yearsList current_year).getD (i + 1) 0)

/-- A calendar date as a year and a zero-based ordinal day within that year,
ordered lexicographically; January 1 of year `y` is `(y, 0)`. -/
def dateLe (a b : Int × Nat) : Prop :=
  a.1 < b.1 ∨ (a.1 = b.1 ∧ a.2 ≤ b.2)

instance (a b : Int × Nat) : Decidable (dateLe a b) := by
  unfold dateLe; exact instDecidableOr

/-- Semantics of the GitHub qualifier `created:a-01-01..b-01-01`: the `..`
range is inclusive at both ends, so a creation date `d` matches exactly when
`a-01-01 ≤ d ≤ b-01-01`. -/
def inCreatedRange (d : Int × Nat) (r : Int × Int) : Prop :=
  dateLe (r.1, 0) d ∧ dateLe d (r.2, 0)

instance (d : Int × Nat) (r : Int × Int) : Decidable (inCreatedRange d r) := by
  unfold inCreatedRange; exact instDecidableAnd

/-! ## Crawl Orchestrator — `GitHubRepoMiner.find_repos_with_criteria_segmented`
(lines 226-333) -/

/-- One item of a repository-search response, with the fields read at
lines 259-275. -/
structure Repo where
  full_name : String
  html_url : String
  stargazers_count : Int
  description : Option String
deriving DecidableEq

/-- One entry appended to `requirements_with_transitions` or
`yml_with_transitions` (lines 285-289, 298-302, 310-314). -/
structure MatchEntry where
  name : String
  path : String
  url : String
deriving DecidableEq

/-- The per-repository record built at lines 269-275. -/
structure RepoData where
  repo_url : String
  stars : Int
  description : Option String
  requirements_with_transitions : List MatchEntry
  yml_with_transitions : List MatchEntry
deriving DecidableEq

/-- The remote API as seen by the orchestrator, as a deterministic oracle:
`search_python_repos q page` is the item list returned by
`search_python_repos` (lines 49-79) for that query and page;
`search_files r f` is the item list returned by
`search_specific_files_in_repo r f`; `check_content r p t` is the result of
`check_file_content_for_text r p t`. -/
structure MinerEnv where
  search_python_repos : String → Nat → List Repo
  search_files : String → String → List FileItem
  check_content : String → String → String → Bool

/-- The verified matches one manifest pattern contributes for one repository:
the loop at lines 281-290 (and its twins at 294-303 and 306-315) keeps exactly
the returned files whose content check succeeds. -/
def file_matches (env : MinerEnv) (repo_name filename : String) : List MatchEntry :=
  (env.search_files repo_name filename).filterMap (fun f =>
    if env.check_content repo_name f.path "transitions"
    then some ⟨f.name, f.path, f.html_url⟩ else none)

/-- The value of the `found_relevant_content` flag (lines 277-315) for a
repository name: whether any of the three manifest patterns yields at least
one verified match.  It depends only on the repository name and the oracle. -/
def found_relevant_content (env : MinerEnv) (repo_name : String) : Bool :=
  !(file_matches env repo_name "requirements.txt").isEmpty
    || !(file_matches env repo_name ".yml").isEmpty
    || !(file_matches env repo_name "pyproject.toml").isEmpty

/-- The `repo_data` record as completed by lines 269-315: `pyproject.toml`
matches are appended to `requirements_with_transitions` (lines 310-314). -/
def build_repo_data (env : MinerEnv) (repo : Repo) : RepoData :=
  { repo_url := repo.html_url
    stars := repo.stargazers_count
    description := repo.description
    requirements_with_transitions :=
      file_matches env repo.full_name "requirements.txt"
        ++ file_matches env repo.full_name "pyproject.toml"
    yml_with_transitions := file_matches env repo.full_name ".yml" }

/-- The mutable state of one run of the orchestrator: the `results` dict
(insertion-ordered association list) and the `repos_checked` counter. -/
structure CrawlState where
  results : List (String × RepoData)
  repos_checked : Nat
deriving DecidableEq

/-- The `for repo in repos` loop (lines 255-319): stop when the counter has
reached the maximum (lines 256-257); skip a repository already present in
`results` (lines 262-264); otherwise increment the counter (line 266), build
its record and insert it exactly when `found_relevant_content` holds
(lines 317-319). -/
def processRepos (env : MinerEnv) (max_repos : Nat) : List Repo → CrawlState → CrawlState
  | [], st => st
  | repo :: rest, st =>
    if st.repos_checked ≥ max_repos then st
    else if (st.results.lookup repo.full_name).isSome then
      processRepos env max_repos rest st
    else if found_relevant_content env repo.full_name then
      processRepos env max_repos rest
        ⟨st.results ++ [(repo.full_name, build_repo_data env repo)], st.repos_checked + 1⟩
    else
      processRepos env max_repos rest ⟨st.results, st.repos_checked + 1⟩

/-- The `while repos_checked < max_repos` pagination loop (lines 247-331),
written with an explicit iteration budget `fuel` for structural recursion:
the loop body runs at most 30 times (the `page > 30` break at lines 329-331),
so any `fuel ≥ 31` makes the base case unreachable from `page = 1`.  Body:
fetch the page; stop on an empty page (lines 251-253); process its
repositories; advance the page; stop when the page had fewer than 10 items
(lines 324-326) or the new page index exceeds 30 (lines 329-331). -/
def crawlPages (env : MinerEnv) (max_repos : Nat) (query : String) :
    Nat → Nat → CrawlState → CrawlState
  | 0, _, st => st
  | fuel + 1, page, st =>
    if st.repos_checked ≥ max_repos then st
    else if (env.search_python_repos query page).isEmpty then st
    else if (env.search_python_repos query page).length < 10 then
      processRepos env max_repos (env.search_python_repos query page) st
    else if page + 1 > 30 then
      processRepos env max_repos (env.search_python_repos query page) st
    else crawlPages env max_repos query fuel (page + 1)
      (processRepos env max_repos (env.search_python_repos query page) st)

/-- The outer `for query_index, query in enumerate(queries)` loop
(lines 240-331): stop when the counter has reached the maximum
(lines 241-242), otherwise paginate the query starting at page 1. -/
def crawlQueries (env : MinerEnv) (max_repos : Nat) : List String → CrawlState → CrawlState
  | [], st => st
  | q :: qs, st =>
    if st.repos_checked ≥ max_repos then st
    else crawlQueries env max_repos qs (crawlPages env max_repos q 31 1 st)

/-- Model of `find_repos_with_criteria_segmented` (lines 226-333) as a
function of the oracle, the current year and `max_repos`.  The Python function
returns `results`; the model returns the whole final state so that the
`repos_checked` counter can be specified as well. -/
def find_repos_with_criteria_segmented (env : MinerEnv) (current_year : Int)
    (max_repos : Nat) : CrawlState :=
  crawlQueries env max_repos (create_segmented_queries current_year) ⟨[], 0⟩

/-! ## Theorems: Rate Governor (claims C4, C5, C10) -/

/-- C4 (counterexample): with the last-known quota below 10, a quota-status
request that fails with a transport error makes `check_rate_limit` raise (the
exception propagates, lines 38-41 have no handler) — it does not return
normally, contradicting the fail-open claim. -/
theorem C4_counterexample :
    check_rate_limit 5 (Except.error "requests.exceptions.ConnectionError") 1000
      = Except.error "requests.exceptions.ConnectionError" := rfl

/-- C4 (amended): whenever the last-known remaining quota is below 10 and the
quota-status request fails — either with a transport-level exception or with a
response from which `data["rate"]` cannot be read — `check_rate_limit`
propagates the exception instead of returning normally: the governor is
fail-closed, not fail-open. -/
theorem C4_amended (rate_limit_remaining now : Int) (e : String)
    (hlow : rate_limit_remaining < 10) :
    check_rate_limit rate_limit_remaining (Except.error e) now = Except.error e ∧
    check_rate_limit rate_limit_remaining (Except.ok none) now
      = Except.error "KeyError: rate" := by
  refine ⟨?_, ?_⟩ <;> simp [check_rate_limit, hlow]

/-- C4 (witness): the amended statement applied at remaining quota 5, time 0
and a concrete transport error. -/
theorem C4_witness :
    check_rate_limit 5 (Except.error "ConnectionError") 0
        = Except.error "ConnectionError" ∧
    check_rate_limit 5 (Except.ok none) 0 = Except.error "KeyError: rate" :=
  C4_amended 5 0 "ConnectionError" (by norm_num)

/-- C5: if the last-known remaining quota is below 10, the refreshed quota
data `d` reports fewer than 5 remaining calls, and `check_rate_limit` returns
normally, then the recorded sleep is at least `d.reset - now + 10` seconds. -/
theorem C5_wait_at_least_reset (rate_limit_remaining now r slept : Int)
    (d : RateData) (hlow : rate_limit_remaining < 10) (hcrit : d.remaining < 5)
    (hret : check_rate_limit rate_limit_remaining (Except.ok (some d)) now
      = Except.ok (r, slept)) :
    slept ≥ d.reset - now + 10 := by
  unfold check_rate_limit at hret
  rw [if_pos hlow] at hret
  simp only [hcrit, if_pos] at hret
  by_cases hw : d.reset - now + 10 < 0
  · rw [if_pos hw] at hret
    exact absurd hret (by simp)
  · rw [if_neg hw] at hret
    have h2 : (d.remaining, d.reset - now + 10) = (r, slept) := by
      simpa using hret
    have h3 : d.reset - now + 10 = slept := congrArg Prod.snd h2
    omega

/-- C5 (witness): remaining 5, refreshed data (3 remaining, reset 100), time
50 — the call returns and slept 60 ≥ 100 - 50 + 10. -/
theorem C5_witness :
    check_rate_limit 5 (Except.ok (some ⟨3, 100⟩)) 50 = Except.ok (3, 60) ∧
    (60 : Int) ≥ 100 - 50 + 10 :=
  ⟨rfl, C5_wait_at_least_reset 5 50 3 60 ⟨3, 100⟩ (by norm_num) (by norm_num) rfl⟩

/-- C10: if the last-known remaining quota is below 10, the refreshed quota
data reports fewer than 5 remaining calls, and the reported reset timestamp
lies more than 10 seconds in the past (`d.reset + 10 < now`, so the computed
wait `d.reset - now + 10` is negative), then `check_rate_limit` raises: the
negative duration reaches `time.sleep`, which raises `ValueError` — the wait
is not clamped to zero. -/
theorem C10_negative_wait_raises (rate_limit_remaining now : Int) (d : RateData)
    (hlow : rate_limit_remaining < 10) (hcrit : d.remaining < 5)
    (hpast : d.reset + 10 < now) :
    check_rate_limit rate_limit_remaining (Except.ok (some d)) now
      = Except.error "ValueError: sleep length must be non-negative" := by
  unfold check_rate_limit
  rw [if_pos hlow]
  simp only []
  rw [if_pos hcrit, if_pos (by omega : d.reset - now + 10 < 0)]

/-- C10 (witness): remaining 5, refreshed data (3 remaining, reset 0), time
100 — the call raises the `ValueError` from `time.sleep`. -/
theorem C10_witness :
    check_rate_limit 5 (Except.ok (some ⟨3, 0⟩)) 100
      = Except.error "ValueError: sleep length must be non-negative" :=
  C10_negative_wait_raises 5 100 ⟨3, 0⟩ (by norm_num) (by norm_num) (by norm_num)

/-! ## Theorems: Search Client (claims C6, C7) -/

/-- A response sequence that reports quota exhaustion on the first three
requests and would succeed on any later one. -/
def quotaThenOk : Nat → CodeSearchResponse := fun i =>
  if i < 3 then CodeSearchResponse.rateLimited 100
  else CodeSearchResponse.ok [⟨"requirements.txt", "requirements.txt", "u"⟩]

/-- C6 (counterexample): three consecutive quota-exceeded responses exhaust
the 3-attempt budget of `search_specific_files_in_repo` and make it return an
empty list — even though a fourth request would have succeeded.  The retry on
quota exhaustion is bounded, not unbounded: each quota-exceeded response
consumes one slot of `for attempt in range(max_retries)` (line 106). -/
theorem C6_counterexample :
    search_specific_files_in_repo quotaThenOk (fun _ => 0)
        = ⟨[], [110, 110, 110], 3⟩ ∧
    quotaThenOk 3
        = CodeSearchResponse.ok [⟨"requirements.txt", "requirements.txt", "u"⟩] := by
  constructor
  · rfl
  · rfl

/-- C6 (amended): a quota-exceeded response is retried after sleeping
`max (reset - now + 10) 60` seconds, but the retry consumes an attempt slot of
the 3-attempt budget: after 3 consecutive quota-exceeded responses the call
makes no further request and returns an empty sequence. -/
theorem C6_amended (resp : Nat → CodeSearchResponse) (now : Nat → Int)
    (r0 r1 r2 : Int) (h0 : resp 0 = CodeSearchResponse.rateLimited r0)
    (h1 : resp 1 = CodeSearchResponse.rateLimited r1)
    (h2 : resp 2 = CodeSearchResponse.rateLimited r2) :
    search_specific_files_in_repo resp now =
      ⟨[], [max (r0 - now 0 + 10) 60, max (r1 - now 1 + 10) 60,
            max (r2 - now 2 + 10) 60], 3⟩ := by
  unfold search_specific_files_in_repo
  rw [search_loop, h0]
  rw [search_loop, h1]
  rw [search_loop, h2]
  rw [search_loop]

/-- C6 (witness): the amended statement applied to a run of three
quota-exceeded responses with reset timestamp 40 at time 0, where the 60-second
floor of the wait applies. -/
theorem C6_witness :
    search_specific_files_in_repo (fun _ => CodeSearchResponse.rateLimited 40)
        (fun _ => 0) = ⟨[], [60, 60, 60], 3⟩ :=
  C6_amended (fun _ => CodeSearchResponse.rateLimited 40) (fun _ => 0)
    40 40 40 rfl rfl rfl

/-- C7: on three consecutive non-quota non-success responses,
`search_specific_files_in_repo` makes exactly 3 attempts, sleeps
`30 * 2 ^ 0 = 30` then `30 * 2 ^ 1 = 60` seconds between consecutive attempts
(none after the last), and returns an empty sequence instead of raising. -/
theorem C7_bounded_backoff (resp : Nat → CodeSearchResponse) (now : Nat → Int)
    (s0 s1 s2 : Nat) (h0 : resp 0 = CodeSearchResponse.failure s0)
    (h1 : resp 1 = CodeSearchResponse.failure s1)
    (h2 : resp 2 = CodeSearchResponse.failure s2) :
    search_specific_files_in_repo resp now = ⟨[], [30 * 2 ^ 0, 30 * 2 ^ 1], 3⟩ := by
  unfold search_specific_files_in_repo
  rw [search_loop, h0]
  rw [search_loop, h1]
  rw [search_loop, h2]
  norm_num

/-- C7 (witness): three consecutive 500 responses lead to the outcome
`([], sleeps [30, 60], 3 attempts)`. -/
theorem C7_witness :
    search_specific_files_in_repo (fun _ => CodeSearchResponse.failure 500)
        (fun _ => 0) = ⟨[], [30 * 2 ^ 0, 30 * 2 ^ 1], 3⟩ :=
  C7_bounded_backoff (fun _ => CodeSearchResponse.failure 500) (fun _ => 0)
    500 500 500 rfl rfl rfl

/-! ## Theorems: Query Segmenter (claims C1, C8) -/

/-- C1: for every current year, `create_segmented_queries` — a pure function
of the current year only, hence deterministic — produces a finite, non-empty
sequence of exactly `8 + 8 * 10 + 1 + 3 = 92` queries: for each of the 8 star
ranges one bare query and 10 year-segmented queries, plus the
created-after-boundary query, plus the 3 size queries. -/
theorem C1_query_count (current_year : Int) :
    (create_segmented_queries current_year).length = 8 + 8 * 10 + 1 + 3 ∧
    create_segmented_queries current_year ≠ [] := by
  refine ⟨rfl, ?_⟩
  intro h
  have h2 : (create_segmented_queries current_year).length = 92 := rfl
  rw [h] at h2
  simp at h2

/-- The `years` list entry `years[i]` is `current_year - 10 + i` for every
index `i` within bounds. -/
theorem yearsList_getD (current_year : Int) (i : Nat) (hi : i < 11) :
    (yearsList current_year).getD i 0 = current_year - 10 + (i : Int) := by
  interval_cases i <;> rfl

/-- C8 (counterexample): the first two date filters generated within a star
range — `created:2015-01-01..2016-01-01` and `created:2016-01-01..2017-01-01`
for current year 2025 — are distinct, yet the creation date 2016-01-01
satisfies both, because the provider's `..` range qualifier is inclusive at
both ends and consecutive filters share a year boundary.  This refutes the
claim that the generated date ranges are pairwise non-overlapping. -/
theorem C8_counterexample :
    created_range_pair 2025 0 ≠ created_range_pair 2025 1 ∧
    inCreatedRange (2016, 0) (created_range_pair 2025 0) ∧
    inCreatedRange (2016, 0) (created_range_pair 2025 1) := by
  refine ⟨by decide, by decide, by decide⟩

/-- C8 (amended): the one-year creation-date ranges generated within each star
range overlap only at shared year boundaries: if a creation date `d` satisfies
the date filters of two distinct loop indices `i < j` (both within the loop
bound `range(len(years) - 1)`), then the two ranges are adjacent
(`j = i + 1`) and `d` is exactly the shared boundary date, January 1 of the
later range's start year; in particular non-adjacent ranges are disjoint. -/
theorem C8_amended (current_year : Int) (i j : Nat) (d : Int × Nat)
    (hij : i < j) (hj : j < 10)
    (hdi : inCreatedRange d (created_range_pair current_year i))
    (hdj : inCreatedRange d (created_range_pair current_year j)) :
    j = i + 1 ∧ d.1 = (created_range_pair current_year j).1 ∧ d.2 = 0 := by
  obtain ⟨dy, dd⟩ := d
  have e1 := yearsList_getD current_year i (by omega)
  have e2 := yearsList_getD current_year (i + 1) (by omega)
  have e3 := yearsList_getD current_year j (by omega)
  have e4 := yearsList_getD current_year (j + 1) (by omega)
  unfold created_range_pair at hdi hdj ⊢
  unfold inCreatedRange dateLe at hdi hdj
  rw [e1, e2] at hdi
  rw [e3, e4] at hdj
  rw [e3]
  simp only [] at hdi hdj
  push_cast at hdi hdj ⊢
  omega

/-- C8 (witness): the amended statement applied at current year 2025, indices
0 and 1, date 2016-01-01: the ranges are adjacent and the date is the shared
January 1 boundary. -/
theorem C8_witness :
    (1 : Nat) = 0 + 1 ∧
    ((2016 : Int), (0 : Nat)).1 = (created_range_pair 2025 1).1 ∧
    ((2016 : Int), (0 : Nat)).2 = 0 :=
  C8_amended 2025 0 1 (2016, 0) (by norm_num) (by norm_num) (by decide) (by decide)

/-! ## Theorems: Content Verifier (claim C9) -/

/-- C9: `check_file_content_for_text` on a successful (200) response returns
false when the body lacks an inline `content` field; returns false without
raising when decoding the base64/UTF-8 content fails; and otherwise returns
true exactly when the lower-cased needle is a substring of the lower-cased
decoded content.  In particular content `"dHJhbnNpdGlvbnM="` (which decodes to
"transitions") with needle "transitions" returns true. -/
theorem C9_content_verifier (needle enc : String) :
    check_file_content_for_text ⟨200, none⟩ needle = false ∧
    (decodeContent enc = none →
      check_file_content_for_text ⟨200, some enc⟩ needle = false) ∧
    (∀ content, decodeContent enc = some content →
      (check_file_content_for_text ⟨200, some enc⟩ needle = true ↔
        listIsSub (needle.toList.map Char.toLower)
          (content.map Char.toLower) = true)) ∧
    check_file_content_for_text ⟨200, some "dHJhbnNpdGlvbnM="⟩ "transitions"
      = true := by
  refine ⟨rfl, ?_, ?_, by decide⟩
  · intro h
    simp [check_file_content_for_text, h]
  · intro content h
    simp [check_file_content_for_text, h]

/-- C9 (witness): the statement applied at needle "x" and encoded content "A"
(a one-character base64 text, whose decoding fails with an invalid-padding
error): the no-content case, the decoding-failure case and the concrete
"dHJhbnNpdGlvbnM=" case. -/
theorem C9_witness :
    check_file_content_for_text ⟨200, none⟩ "x" = false ∧
    check_file_content_for_text ⟨200, some "A"⟩ "x" = false ∧
    check_file_content_for_text ⟨200, some "dHJhbnNpdGlvbnM="⟩ "transitions"
      = true :=
  ⟨(C9_content_verifier "x" "A").1,
   (C9_content_verifier "x" "A").2.1 (by decide),
   (C9_content_verifier "x" "A").2.2.2⟩

/-! ## Lemmas: association-list lookups for the orchestrator results dict -/

/-- A key bound in `l1` keeps its binding after appending `l2`. -/
theorem lookup_append_of_some {l1 l2 : List (String × RepoData)} {r : String}
    {v : RepoData} (h : l1.lookup r = some v) : (l1 ++ l2).lookup r = some v := by
  induction l1 with
  | nil => simp [List.lookup] at h
  | cons p t ih =>
    obtain ⟨k, w⟩ := p
    by_cases hr : (r == k) = true <;> simp [List.lookup, hr] at h ⊢ <;> simp_all

/-- Appending a fresh binding makes its key found, provided it was unbound. -/
theorem lookup_append_fresh {l : List (String × RepoData)} {k : String}
    {v : RepoData} (h : l.lookup k = none) : (l ++ [(k, v)]).lookup k = some v := by
  induction l with
  | nil => simp [List.lookup]
  | cons p t ih =>
    obtain ⟨k2, w⟩ := p
    by_cases hr : (k == k2) = true
    · simp only [List.lookup, hr] at h
      exact absurd h (by simp)
    · have hrb : (k == k2) = false := by simpa using hr
      simp only [List.cons_append, List.lookup, hrb] at h ⊢
      exact ih h

/-- A binding found after appending one entry was either already there or is
that entry. -/
theorem lookup_append_cases {l : List (String × RepoData)} {k r : String}
    {v d : RepoData} (h : (l ++ [(k, v)]).lookup r = some d) :
    l.lookup r = some d ∨ (r = k ∧ d = v) := by
  induction l with
  | nil =>
    by_cases hr : (r == k) = true
    · right
      simp [List.lookup, hr] at h
      exact ⟨by simpa using hr, h.symm⟩
    · simp [List.lookup, hr] at h
  | cons p t ih =>
    obtain ⟨k2, w⟩ := p
    by_cases hr : (r == k2) = true <;> simp only [List.cons_append, List.lookup, hr] at h ⊢
    · left
      simpa using h
    · exact ih h

/-- A key unbound in `l` and distinct from the appended key stays unbound. -/
theorem lookup_append_none {l : List (String × RepoData)} {k r : String}
    {v : RepoData} (h : l.lookup r = none) (hk : r ≠ k) :
    (l ++ [(k, v)]).lookup r = none := by
  induction l with
  | nil =>
    have hrb : (r == k) = false := by simpa using hk
    simp [List.lookup, hrb]
  | cons p t ih =>
    obtain ⟨k2, w⟩ := p
    by_cases hr : (r == k2) = true
    · simp only [List.lookup, hr] at h
      exact absurd h (by simp)
    · have hrb : (r == k2) = false := by simpa using hr
      simp only [List.cons_append, List.lookup, hrb] at h ⊢
      exact ih h

/-! ## Lemmas: orchestrator invariants -/

/-- Every binding of the results dict is for a repository with at least one
verified match and carries non-trivially-empty match lists. -/
def ResultsGood (env : MinerEnv) (st : CrawlState) : Prop :=
  ∀ r d, st.results.lookup r = some d →
    found_relevant_content env r = true ∧
    (d.requirements_with_transitions ≠ [] ∨ d.yml_with_transitions ≠ [])

/-- A repository whose `found_relevant_content` flag is set gets a record with
at least one of its two match lists non-empty. -/
theorem build_repo_data_good (env : MinerEnv) (repo : Repo)
    (h : found_relevant_content env repo.full_name = true) :
    (build_repo_data env repo).requirements_with_transitions ≠ [] ∨
    (build_repo_data env repo).yml_with_transitions ≠ [] := by
  by_cases hyml : file_matches env repo.full_name ".yml" = []
  · by_cases hreq : file_matches env repo.full_name "requirements.txt" = []
    · by_cases hpy : file_matches env repo.full_name "pyproject.toml" = []
      · exfalso
        unfold found_relevant_content at h
        rw [hreq, hyml, hpy] at h
        simp at h
      · left
        intro heq
        exact hpy (List.append_eq_nil.1 heq).2
    · left
      intro heq
      exact hreq (List.append_eq_nil.1 heq).1
  · right
    exact hyml

/-- `processRepos` preserves `ResultsGood`. -/
theorem processRepos_good (env : MinerEnv) (max_repos : Nat) (l : List Repo) :
    ∀ st : CrawlState, ResultsGood env st →
      ResultsGood env (processRepos env max_repos l st) := by
  induction l with
  | nil => intro st h; exact h
  | cons repo rest ih =>
    intro st h
    simp only [processRepos]
    split
    · exact h
    · split
      · exact ih st h
      · split
        · next hf =>
          apply ih
          intro r d hd
          rcases lookup_append_cases hd with hold | ⟨hrk, hdv⟩
          · exact h r d hold
          · subst hrk; subst hdv
            exact ⟨hf, build_repo_data_good env repo hf⟩
        · apply ih
          intro r d hd
          exact h r d hd

/-- `crawlPages` preserves `ResultsGood`. -/
theorem crawlPages_good (env : MinerEnv) (max_repos : Nat) (query : String) :
    ∀ (fuel page : Nat) (st : CrawlState), ResultsGood env st →
      ResultsGood env (crawlPages env max_repos query fuel page st) := by
  intro fuel
  induction fuel with
  | zero => intro page st h; exact h
  | succ n ih =>
    intro page st h
    simp only [crawlPages]
    split
    · exact h
    · split
      · exact h
      · split
        · exact processRepos_good env max_repos _ st h
        · split
          · exact processRepos_good env max_repos _ st h
          · exact ih _ _ (processRepos_good env max_repos _ st h)

/-- `crawlQueries` preserves `ResultsGood`. -/
theorem crawlQueries_good (env : MinerEnv) (max_repos : Nat) (qs : List String) :
    ∀ st : CrawlState, ResultsGood env st →
      ResultsGood env (crawlQueries env max_repos qs st) := by
  induction qs with
  | nil => intro st h; exact h
  | cons q rest ih =>
    intro st h
    simp only [crawlQueries]
    split
    · exact h
    · exact ih _ (crawlPages_good env max_repos q 31 1 st h)

/-- An existing binding of the results dict survives `processRepos`. -/
theorem processRepos_lookup_mono (env : MinerEnv) (max_repos : Nat) (l : List Repo) :
    ∀ (st : CrawlState) (r : String) (d : RepoData),
      st.results.lookup r = some d →
      (processRepos env max_repos l st).results.lookup r = some d := by
  induction l with
  | nil => intro st r d h; exact h
  | cons repo rest ih =>
    intro st r d h
    simp only [processRepos]
    split
    · exact h
    · split
      · exact ih st r d h
      · split
        · exact ih _ r d (lookup_append_of_some h)
        · exact ih _ r d h

/-- A repository name with no verified match is never inserted by
`processRepos`. -/
theorem processRepos_not_found_none (env : MinerEnv) (max_repos : Nat)
    (name : String) (hf : found_relevant_content env name = false) :
    ∀ (l : List Repo) (st : CrawlState), st.results.lookup name = none →
      (processRepos env max_repos l st).results.lookup name = none := by
  intro l
  induction l with
  | nil => intro st h; exact h
  | cons repo rest ih =>
    intro st h
    simp only [processRepos]
    split
    · exact h
    · split
      · exact ih st h
      · split
        · next hfound =>
          apply ih
          apply lookup_append_none h
          intro heq
          rw [heq] at hf
          rw [hfound] at hf
          exact absurd hf (by simp)
        · exact ih _ h

/-- A fresh repository at the head of the page, processed under budget, is
inserted exactly with its built record when it has a verified match. -/
theorem processRepos_head_found (env : MinerEnv) (max_repos : Nat) (repo : Repo)
    (rest : List Repo) (st : CrawlState) (hc : st.repos_checked < max_repos)
    (hn : st.results.lookup repo.full_name = none)
    (hf : found_relevant_content env repo.full_name = true) :
    (processRepos env max_repos (repo :: rest) st).results.lookup repo.full_name
      = some (build_repo_data env repo) := by
  simp only [processRepos]
  rw [if_neg (by omega), if_neg (by simp [hn]), if_pos hf]
  exact processRepos_lookup_mono env max_repos rest _ _ _ (lookup_append_fresh hn)

/-- A fresh repository at the head of the page with no verified match is never
a key of the results dict afterwards. -/
theorem processRepos_head_not_found (env : MinerEnv) (max_repos : Nat)
    (repo : Repo) (rest : List Repo) (st : CrawlState)
    (hn : st.results.lookup repo.full_name = none)
    (hf : found_relevant_content env repo.full_name = false) :
    (processRepos env max_repos (repo :: rest) st).results.lookup repo.full_name
      = none := by
  simp only [processRepos]
  split
  · exact hn
  · rw [if_neg (by simp [hn]), if_neg (by simp [hf])]
    exact processRepos_not_found_none env max_repos _ hf rest _ hn

/-! ## Theorems: Crawl Orchestrator (claims C2, C3) -/

/-- C2: a repository name is a key of the returned ResultSet if and only if at
least one FileMatch was recorded for it.  First conjunct (over the whole run):
every key of the final results dict has `found_relevant_content` set — i.e. at
least one verified FileMatch across the three manifest patterns — and its
record keeps at least one non-empty match list; in particular a repository
examined with zero verified matches is never a key.  Second conjunct (per
examination step): a repository examined under budget and not yet present
becomes a key exactly when it has at least one verified FileMatch. -/
theorem C2_resultset_iff (env : MinerEnv) (current_year : Int) (max_repos : Nat) :
    (∀ r d,
      (find_repos_with_criteria_segmented env current_year max_repos).results.lookup r
          = some d →
        found_relevant_content env r = true ∧
        (d.requirements_with_transitions ≠ [] ∨ d.yml_with_transitions ≠ [])) ∧
    (∀ (st : CrawlState) (repo : Repo) (rest : List Repo),
      st.repos_checked < max_repos → st.results.lookup repo.full_name = none →
      (((processRepos env max_repos (repo :: rest) st).results.lookup
          repo.full_name).isSome ↔
        found_relevant_content env repo.full_name = true)) := by
  constructor
  · intro r d hd
    have hinit : ResultsGood env ⟨[], 0⟩ := by
      intro r2 d2 h2
      simp [List.lookup] at h2
    exact crawlQueries_good env max_repos (create_segmented_queries current_year)
      ⟨[], 0⟩ hinit r d hd
  · intro st repo rest hc hn
    constructor
    · intro hs
      cases hb : found_relevant_content env repo.full_name with
      | true => rfl
      | false =>
        rw [processRepos_head_not_found env max_repos repo rest st hn hb] at hs
        simp at hs
    · intro hf
      rw [processRepos_head_found env max_repos repo rest st hc hn hf]
      rfl

/-- A repository returned by every first page, matching on its
`requirements.txt`. -/
def repoA : Repo := ⟨"a/r", "https://github.com/a/r", 3, none⟩

/-- A single possible code-search item for `repoA`. -/
def itemW : FileItem := ⟨"requirements.txt", "requirements.txt", "u"⟩

/-- An oracle whose every first page returns only `repoA`, whose
`requirements.txt` search finds `itemW` and whose content checks always
succeed. -/
def envW : MinerEnv :=
  { search_python_repos := fun _ page => if page = 1 then [repoA] else []
    search_files := fun _ fn => if fn = "requirements.txt" then [itemW] else []
    check_content := fun _ _ _ => true }

/-- C2 (witness): under `envW`, processing the fresh repository `repoA` from
the empty state inserts its name into the results dict. -/
theorem C2_witness :
    ((processRepos envW 5 [repoA] ⟨[], 0⟩).results.lookup "a/r").isSome :=
  ((C2_resultset_iff envW 2025 5).2 ⟨[], 0⟩ repoA [] (by norm_num) rfl).mpr
    (by decide)

/-- With the counter at or above the maximum, `processRepos` does nothing. -/
theorem processRepos_stopped (env : MinerEnv) (max_repos : Nat) (l : List Repo)
    (st : CrawlState) (h : max_repos ≤ st.repos_checked) :
    processRepos env max_repos l st = st := by
  cases l with
  | nil => rfl
  | cons repo rest =>
    simp only [processRepos]
    rw [if_pos h]

/-- `processRepos` never pushes the counter beyond the maximum. -/
theorem processRepos_checked_le (env : MinerEnv) (max_repos : Nat) (l : List Repo) :
    ∀ st : CrawlState, st.repos_checked ≤ max_repos →
      (processRepos env max_repos l st).repos_checked ≤ max_repos := by
  induction l with
  | nil => intro st h; exact h
  | cons repo rest ih =>
    intro st h
    simp only [processRepos]
    split
    · exact h
    · next hg =>
      split
      · exact ih st h
      · split
        · exact ih _ (by simp only []; omega)
        · exact ih _ (by simp only []; omega)

/-- `crawlPages` never pushes the counter beyond the maximum. -/
theorem crawlPages_checked_le (env : MinerEnv) (max_repos : Nat) (query : String) :
    ∀ (fuel page : Nat) (st : CrawlState), st.repos_checked ≤ max_repos →
      (crawlPages env max_repos query fuel page st).repos_checked ≤ max_repos := by
  intro fuel
  induction fuel with
  | zero => intro page st h; exact h
  | succ n ih =>
    intro page st h
    simp only [crawlPages]
    split
    · exact h
    · split
      · exact h
      · split
        · exact processRepos_checked_le env max_repos _ st h
        · split
          · exact processRepos_checked_le env max_repos _ st h
          · exact ih _ _ (processRepos_checked_le env max_repos _ st h)

/-- `crawlQueries` never pushes the counter beyond the maximum. -/
theorem crawlQueries_checked_le (env : MinerEnv) (max_repos : Nat) (qs : List String) :
    ∀ st : CrawlState, st.repos_checked ≤ max_repos →
      (crawlQueries env max_repos qs st).repos_checked ≤ max_repos := by
  induction qs with
  | nil => intro st h; exact h
  | cons q rest ih =>
    intro st h
    simp only [crawlQueries]
    split
    · exact h
    · exact ih _ (crawlPages_checked_le env max_repos q 31 1 st h)

/-- An oracle whose every first page returns only the non-matching repository
`repoA`: no code search ever returns an item and no content check succeeds. -/
def envC3 : MinerEnv :=
  { search_python_repos := fun _ page => if page = 1 then [repoA] else []
    search_files := fun _ _ => []
    check_content := fun _ _ _ => false }

/-- C3 (counterexample): the counter does not count distinct repositories.
The oracle `envC3` only ever supplies the single repository `repoA` (name
"a/r"), which never matches; yet a run with maximum 5 ends with the counter at
5 — `repoA` was counted once per query segment, five times, because only
repositories already inserted into the results dict are skipped, and a
non-matching repository is never inserted.  Under the claim the count of
distinct repositories examined would have been 1 and the run would not have
stopped there. -/
theorem C3_counterexample :
    (find_repos_with_criteria_segmented envC3 2025 5).repos_checked = 5 ∧
    (find_repos_with_criteria_segmented envC3 2025 5).results = [] := by
  constructor
  · decide
  · decide

/-- C3 (amended): the loop-termination counter `repos_checked` counts
repository considerations, not distinct repository names: (1) over a whole run
it never exceeds the caller-supplied maximum; (2) the outer query loop stops
as soon as the counter has reached the maximum; (3) a repository already
present in the results dict (i.e. one that previously matched) is skipped
without incrementing; (4) every other repository consideration — including a
repeated consideration of a non-matching repository seen in an earlier
segment — increments the counter by exactly one. -/
theorem C3_amended (env : MinerEnv) (current_year : Int) (max_repos : Nat) :
    (find_repos_with_criteria_segmented env current_year max_repos).repos_checked
        ≤ max_repos ∧
    (∀ (qs : List String) (st : CrawlState), max_repos ≤ st.repos_checked →
      crawlQueries env max_repos qs st = st) ∧
    (∀ (st : CrawlState) (repo : Repo) (rest : List Repo),
      (st.results.lookup repo.full_name).isSome →
      processRepos env max_repos (repo :: rest) st
        = processRepos env max_repos rest st) ∧
    (∀ (st : CrawlState) (repo : Repo) (rest : List Repo),
      st.repos_checked < max_repos → st.results.lookup repo.full_name = none →
      ∃ st2 : CrawlState,
        processRepos env max_repos (repo :: rest) st
            = processRepos env max_repos rest st2 ∧
          st2.repos_checked = st.repos_checked + 1) := by
  refine ⟨?_, ?_, ?_, ?_⟩
  · exact crawlQueries_checked_le env max_repos _ ⟨[], 0⟩ (Nat.zero_le _)
  · intro qs st h
    cases qs with
    | nil => rfl
    | cons q rest =>
      simp only [crawlQueries]
      rw [if_pos h]
  · intro st repo rest hs
    by_cases hg : max_repos ≤ st.repos_checked
    · rw [processRepos_stopped env max_repos _ st hg,
        processRepos_stopped env max_repos rest st hg]
    · simp only [processRepos]
      rw [if_neg hg, if_pos hs]
  · intro st repo rest hc hn
    simp only [processRepos]
    rw [if_neg (by omega), if_neg (by simp [hn])]
    by_cases hf : found_relevant_content env repo.full_name = true
    · rw [if_pos hf]
      exact ⟨_, rfl, rfl⟩
    · rw [if_neg hf]
      exact ⟨_, rfl, rfl⟩

/-- C3 (witness): the amended statement applied to the oracle `envC3` with
maximum 5, and to a stopped state with counter 7 ≥ 5 for the
outer-loop-termination conjunct. -/
theorem C3_witness :
    (find_repos_with_criteria_segmented envC3 2025 5).repos_checked ≤ 5 ∧
    crawlQueries envC3 5 ["language:python"] ⟨[], 7⟩ = ⟨[], 7⟩ :=
  ⟨(C3_amended envC3 2025 5).1,
   (C3_amended envC3 2025 5).2.1 ["language:python"] ⟨[], 7⟩ (by norm_num)⟩

/-- C1 (witness): the query-count statement applied at current year 2025. -/
theorem C1_witness :
    (create_segmented_queries 2025).length = 8 + 8 * 10 + 1 + 3 ∧
    create_segmented_queries 2025 ≠ [] :=
  C1_query_count 2025
